import Mathlib

/-!
# VectorSmith — shallow embedding and verification

This file embeds the backend adapters (`SqliteAdapter`, `PgVectorAdapter`,
`RedisAdapter`, `QdrantAdapter`), the aggregator (`VectorSmithAdapter`), the
embedding providers (Jina / OpenAI) and the embedding registry
(`VectorSmithEmbedding`) of the VectorSmith TypeScript repository in Lean 4,
and proves properties of the embedded code.

Modelling conventions:
* JavaScript `number` values carried in vectors are modelled as `Rat`
  (the claims under study concern lengths and orderings, never rounding);
  `number` fields that the code compares with `<= 0` are modelled as `Int`.
* Effectful methods are modelled as pure functions that return, next to their
  `Except`-style result, the list of calls they issued to the vendor driver,
  so that "performs no network/database call" is the statement that this
  trace is empty.
* Vendor-driver behaviour (the Postgres server, the better-sqlite3 library,
  the HTTP endpoints) is external to the repository; it enters the model
  either as an explicit environment argument (a driver reply) or, for the
  pgvector server, as a small faithful model of the documented server
  semantics (a vector INSERT/SELECT with the wrong dimensionality fails the
  statement and writes nothing).
-/

deriving instance DecidableEq for Except

/-! ## SqliteAdapter (src/adapter/sqlite.adapter.ts) -/

/-- Embeds `SqliteDistanceMetric` — the union type
`"cosine" | "l2" | "dot" | "inner_product"`. -/
inductive SqliteDistanceMetric
  | cosine
  | l2
  | dot
  | innerProduct
  deriving DecidableEq, Repr

/-- The part of `SqliteAdapterConfig` the verified operations read.
`vectorDimension` is a JS `number` compared against `<= 0`, hence `Int`. -/
structure SqliteAdapterConfig where
  vectorDimension : Int
  distanceMetric : Option SqliteDistanceMetric := none
  deriving DecidableEq, Repr

/-- Errors thrown by the embedded `SqliteAdapter` methods (each constructor
corresponds to one `throw new Error(...)` site in the source). -/
inductive SqliteError
  | invalidDimensionConfig
  | notConnected
  | dimensionMismatch (expected : Int) (received : Nat)
  | metricMismatch (configured requested : String)
  deriving DecidableEq, Repr

/-- Embeds `mapDistanceMetric`: normalises an optional metric to the string stored
in `this.distanceMetric` (absent ↦ "cosine", `inner_product` ↦ "dot").
The source's final `throw` for an unrecognised string is unreachable for
values of the union type, so the embedding is total. -/
def mapDistanceMetric : Option SqliteDistanceMetric → String
  | none => "cosine"
  | some .innerProduct => "dot"
  | some .cosine => "cosine"
  | some .l2 => "l2"
  | some .dot => "dot"

/-- A constructed `SqliteAdapter`: the retained config plus the normalised
`distanceMetric` string computed in the constructor. -/
structure SqliteAdapter where
  config : SqliteAdapterConfig
  distanceMetric : String
  deriving DecidableEq, Repr

/-- The `SqliteAdapter` constructor: throws when `vectorDimension <= 0`,
otherwise stores the config and the normalised metric. -/
def SqliteAdapter.new (config : SqliteAdapterConfig) : Except SqliteError SqliteAdapter :=
  if config.vectorDimension ≤ 0 then
    .error .invalidDimensionConfig
  else
    .ok { config := config, distanceMetric := mapDistanceMetric config.distanceMetric }

/-- Embeds `ensureDimension`: throws a dimension-mismatch error when the vector's
length differs from the configured dimension. -/
def SqliteAdapter.ensureDimension (a : SqliteAdapter) (vector : List Rat) :
    Except SqliteError Unit :=
  if (vector.length : Int) ≠ a.config.vectorDimension then
    .error (.dimensionMismatch a.config.vectorDimension vector.length)
  else
    .ok ()

/-- Embeds `serializeVector`: re-checks the dimension, then encodes the vector as a
little-endian float32 blob; the blob is modelled by the vector itself. -/
def SqliteAdapter.serializeVector (a : SqliteAdapter) (vector : List Rat) :
    Except SqliteError (List Rat) :=
  match a.ensureDimension vector with
  | .error e => .error e
  | .ok _ => .ok vector

/-- Embeds `assertDistanceMetric`: normalises the requested metric and compares it
with the normalised metric stored at construction time. -/
def SqliteAdapter.assertDistanceMetric (a : SqliteAdapter) (metric : SqliteDistanceMetric) :
    Except SqliteError Unit :=
  let normalized := mapDistanceMetric (some metric)
  if normalized ≠ a.distanceMetric then
    .error (.metricMismatch a.distanceMetric normalized)
  else
    .ok ()

/-- One call into the better-sqlite3 driver. `prepare` compiles a statement
against the open handle (no write); `run` executes a prepared
INSERT/UPSERT/DELETE (the write); `exec` runs DDL; `get`/`all` execute a
read-only query. -/
inductive SqliteCall
  | prepare (table : String)
  | run (table : String) (params : List Rat) (metadata : Option String)
  | exec (table : String)
  | getRow (table : String)
  | fullScan (table : String) (query : List Rat) (limit : Int)
  deriving DecidableEq, Repr

/-- Embeds `insertVector`: asserts a connected handle, prepares the INSERT, then
binds `serializeVector vector` (which throws on a dimension mismatch before
`run` executes) and runs the statement. `lastInsertRowid` is the driver's
reply, consumed only when the `run` call is actually issued. -/
def SqliteAdapter.insertVector (a : SqliteAdapter) (connected : Bool)
    (lastInsertRowid : Int) (tableName : String) (vector : List Rat)
    (metadata : Option String) : Except SqliteError Int × List SqliteCall :=
  if !connected then
    (.error .notConnected, [])
  else
    match a.serializeVector vector with
    | .error e => (.error e, [.prepare tableName])
    | .ok blob =>
        (.ok lastInsertRowid, [.prepare tableName, .run tableName blob metadata])

/-- Embeds `upsertVector`: same shape as `insertVector` with a caller-supplied id. -/
def SqliteAdapter.upsertVector (a : SqliteAdapter) (connected : Bool)
    (id : Int) (tableName : String) (vector : List Rat)
    (metadata : Option String) : Except SqliteError Unit × List SqliteCall :=
  if !connected then
    (.error .notConnected, [])
  else
    match a.serializeVector vector with
    | .error e => (.error e, [.prepare tableName])
    | .ok blob =>
        let _ := id
        (.ok (), [.prepare tableName, .run tableName blob metadata])

/-- Embeds `createTable`: asserts a connected handle then issues the DDL and the
`vector_init` call. -/
def SqliteAdapter.createTable (a : SqliteAdapter) (connected : Bool)
    (tableName : String) : Except SqliteError Unit × List SqliteCall :=
  if !connected then
    (.error .notConnected, [])
  else
    let _ := a
    (.ok (), [.exec tableName, .getRow tableName])

/-- Embeds `dropTable`: asserts a connected handle then issues the quantize-cleanup
probe and the DROP. -/
def SqliteAdapter.dropTable (a : SqliteAdapter) (connected : Bool)
    (tableName : String) : Except SqliteError Unit × List SqliteCall :=
  if !connected then
    (.error .notConnected, [])
  else
    let _ := a
    (.ok (), [.getRow tableName, .exec tableName])

/-- Embeds `deleteVector`: asserts a connected handle then runs the DELETE;
`changes` is the driver's reply. -/
def SqliteAdapter.deleteVector (a : SqliteAdapter) (connected : Bool)
    (changes : Int) (tableName : String) (id : Int) :
    Except SqliteError Bool × List SqliteCall :=
  if !connected then
    (.error .notConnected, [])
  else
    let _ := a
    let _ := id
    (.ok (changes > 0), [.prepare tableName, .run tableName [] none])

/-- One row as returned by the `vector_full_scan` join in `searchSimilar`:
the driver's reply (id, stored blob, metadata text, distance). -/
structure SqliteScanRow where
  id : Int
  embedding : List Rat
  metadata : Option String
  distance : Rat
  deriving DecidableEq, Repr

/-- Embeds `searchSimilar`: asserts a connected handle, checks the query vector's
dimension, asserts the requested metric matches the configured one, then
issues the `vector_full_scan` query; `rows` is the driver's reply, mapped to
result records. -/
def SqliteAdapter.searchSimilar (a : SqliteAdapter) (connected : Bool)
    (rows : List SqliteScanRow) (tableName : String) (queryVector : List Rat)
    (limit : Int) (metric : SqliteDistanceMetric) :
    Except SqliteError (List SqliteScanRow) × List SqliteCall :=
  if !connected then
    (.error .notConnected, [])
  else
    match a.ensureDimension queryVector with
    | .error e => (.error e, [])
    | .ok _ =>
        match a.assertDistanceMetric metric with
        | .error e => (.error e, [])
        | .ok _ => (.ok rows, [.fullScan tableName queryVector limit])

/-! ## PgVectorAdapter (src/adapter/pg_vector.adpater.ts) -/

/-- One stored row of a pgvector table (`id SERIAL`, `embedding vector(n)`,
`metadata JSONB` modelled as its serialized text). -/
structure PgRow where
  id : Int
  embedding : List Rat
  metadata : Option String
  deriving DecidableEq, Repr

/-- A pgvector table on the server: the declared column dimension, the next
SERIAL id, and the stored rows. -/
structure PgTable where
  dim : Nat
  nextId : Int
  rows : List PgRow
  deriving DecidableEq, Repr

/-- The server's database: tables keyed by name. -/
abbrev PgDatabase := List (String × PgTable)

/-- Replace the named table's contents. -/
def PgDatabase.setTable (db : PgDatabase) (name : String) (t : PgTable) : PgDatabase :=
  db.map fun p => if p.1 = name then (p.1, t) else p

/-- One network round trip issued by the adapter (a query sent through the
pool to the Postgres server). -/
inductive PgCall
  | insertQuery (table : String) (embedding : List Rat)
  | selectQuery (table : String) (queryVector : List Rat) (limit : Int)
  | ddlQuery (table : String)
  | deleteQuery (table : String) (id : Int)
  deriving DecidableEq, Repr

/-- Errors surfaced by the embedded `PgVectorAdapter` methods. The
`server*` constructors are errors raised by the Postgres server and
propagated unwrapped by the adapter (the adapter itself raises only
`notConnected`). -/
inductive PgError
  | notConnected
  | serverDimensionMismatch (expected : Nat) (received : Nat)
  | serverMissingTable (table : String)
  deriving DecidableEq, Repr

/-- Embeds `insertVector`: asserts a connected pool, then sends the INSERT to the
server unconditionally — the adapter performs no client-side dimension
check (it does not even know the table's declared dimension). Server side
modelled from pgvector semantics: an INSERT whose vector length differs
from the column's declared dimension fails the statement and writes
nothing. Returns (result, new database, network calls issued). -/
def PgVectorAdapter.insertVector (connected : Bool) (db : PgDatabase)
    (tableName : String) (embedding : List Rat) (metadata : Option String) :
    Except PgError Int × PgDatabase × List PgCall :=
  if !connected then
    (.error .notConnected, db, [])
  else
    match db.lookup tableName with
    | none =>
        (.error (.serverMissingTable tableName), db, [.insertQuery tableName embedding])
    | some t =>
        if embedding.length ≠ t.dim then
          (.error (.serverDimensionMismatch t.dim embedding.length), db,
            [.insertQuery tableName embedding])
        else
          (.ok t.nextId,
            db.setTable tableName
              { dim := t.dim, nextId := t.nextId + 1,
                rows := t.rows ++ [{ id := t.nextId, embedding := embedding,
                                     metadata := metadata }] },
            [.insertQuery tableName embedding])

/-- Embeds `createTable`: asserts a connected pool, then sends the CREATE TABLE. -/
def PgVectorAdapter.createTable (connected : Bool) (db : PgDatabase)
    (tableName : String) (vectorDimension : Nat) :
    Except PgError Unit × PgDatabase × List PgCall :=
  if !connected then
    (.error .notConnected, db, [])
  else
    match db.lookup tableName with
    | some _ => (.ok (), db, [.ddlQuery tableName])
    | none =>
        (.ok (), db ++ [(tableName, { dim := vectorDimension, nextId := 1, rows := [] })],
          [.ddlQuery tableName])

/-- Embeds `deleteVector`: asserts a connected pool, then sends the DELETE; returns
whether a row was removed. -/
def PgVectorAdapter.deleteVector (connected : Bool) (db : PgDatabase)
    (tableName : String) (id : Int) :
    Except PgError Bool × PgDatabase × List PgCall :=
  if !connected then
    (.error .notConnected, db, [])
  else
    match db.lookup tableName with
    | none => (.error (.serverMissingTable tableName), db, [.deleteQuery tableName id])
    | some t =>
        let remaining := t.rows.filter fun r => r.id ≠ id
        (.ok (remaining.length < t.rows.length),
          db.setTable tableName { t with rows := remaining },
          [.deleteQuery tableName id])

/-- Embeds `dropTable`: asserts a connected pool, then sends the DROP TABLE. -/
def PgVectorAdapter.dropTable (connected : Bool) (db : PgDatabase)
    (tableName : String) : Except PgError Unit × PgDatabase × List PgCall :=
  if !connected then
    (.error .notConnected, db, [])
  else
    (.ok (), db.filter fun p => p.1 ≠ tableName, [.ddlQuery tableName])

/-- The `"cosine" | "l2" | "inner_product"` union of `searchSimilar`'s
`distanceFunction` parameter. -/
inductive PgDistanceFunction
  | cosine
  | l2
  | innerProduct
  deriving DecidableEq, Repr

/-- Squared euclidean distance. Ordering rows by the pgvector `<->` operator
(euclidean distance) is exactly ordering them by this value. -/
def l2sq (q v : List Rat) : Rat :=
  ((q.zip v).map fun p => (p.1 - p.2) * (p.1 - p.2)).sum

/-- Inner product of two vectors. -/
def dotProduct (q v : List Rat) : Rat :=
  ((q.zip v).map fun p => p.1 * p.2).sum

/-- Squared euclidean norm. -/
def normSq (v : List Rat) : Rat := dotProduct v v

/-- The comparison the server performs for `ORDER BY embedding <-> $1`:
row `a` sorts no later than row `b` iff its euclidean distance to the query
is no larger. -/
def pgOrderLe (q : List Rat) (a b : PgRow) : Prop :=
  l2sq q a.embedding ≤ l2sq q b.embedding

instance (q : List Rat) : DecidableRel (pgOrderLe q) := fun _ _ =>
  inferInstanceAs (Decidable (_ ≤ _))

/-- Embeds `searchSimilar`: asserts a connected pool, then sends one SELECT whose
`ORDER BY` clause is always `embedding <-> $1::vector` (the euclidean
operator) — the selected `distanceFunction` chooses only the distance
expression in the SELECT list, not the ordering. The server sorts the rows
by euclidean distance to the query and applies the LIMIT; row order on
equal keys follows the stable sort of the stored row order. The per-metric
`distance` output column is a float-valued SQL expression (irrational in
general) and is not part of the returned record model; no claim under study
depends on its value. -/
def PgVectorAdapter.searchSimilar (connected : Bool) (db : PgDatabase)
    (tableName : String) (queryVector : List Rat) (limit : Int)
    (distanceFunction : PgDistanceFunction) :
    Except PgError (List PgRow) × List PgCall :=
  if !connected then
    (.error .notConnected, [])
  else
    match db.lookup tableName with
    | none =>
        (.error (.serverMissingTable tableName),
          [.selectQuery tableName queryVector limit])
    | some t =>
        if queryVector.length ≠ t.dim then
          (.error (.serverDimensionMismatch t.dim queryVector.length),
            [.selectQuery tableName queryVector limit])
        else
          let _ := distanceFunction
          let ordered := t.rows.insertionSort (pgOrderLe queryVector)
          (.ok (ordered.take limit.toNat), [.selectQuery tableName queryVector limit])

/-- Closest-first comparison under a selected metric, on exact rationals:
* `l2` — smaller euclidean distance is closer (compared via squares);
* `innerProduct` — pgvector's `<#>` returns the negated inner product, so a
  larger inner product is closer;
* `cosine` — smaller cosine distance is closer; the square-root-free
  comparison of `q·a / (‖a‖‖q‖)` against `q·b / (‖b‖‖q‖)` by signs and
  squares (exact for vectors of nonzero norm). -/
def closerOrEqUnder (m : PgDistanceFunction) (q a b : List Rat) : Bool :=
  match m with
  | .l2 => decide (l2sq q a ≤ l2sq q b)
  | .innerProduct => decide (dotProduct q b ≤ dotProduct q a)
  | .cosine =>
      let da := dotProduct q a
      let db := dotProduct q b
      let na := normSq a * normSq q
      let nb := normSq b * normSq q
      if 0 ≤ da then
        if db < 0 then true else decide (db * db * na ≤ da * da * nb)
      else
        if 0 ≤ db then false else decide (da * da * nb ≤ db * db * na)

/-- A result list is ordered closest-first under metric `m` when every
consecutive pair is in order. -/
def orderedClosestFirst (m : PgDistanceFunction) (q : List Rat) :
    List PgRow → Bool
  | [] => true
  | [_] => true
  | a :: b :: rest =>
      closerOrEqUnder m q a.embedding b.embedding
        && orderedClosestFirst m q (b :: rest)

/-! ## Backend lifecycle and the aggregator (src/adapter/vectorsmith.adapter.ts) -/

/-- Outcome of the single network step of a backend `connect()` (the vendor
driver either reaches the server or rejects). -/
inductive ConnectOutcome
  | success
  | failure
  deriving DecidableEq, Repr, Fintype

/-- Outcome of `SqliteAdapter.connect`: opening the database file can throw
before `this.database` is assigned (`failBeforeOpen`), and loading the
vector extension / applying pragmas / pre-creating the default table can
throw after it (`failAfterOpen`). -/
inductive SqliteConnectOutcome
  | success
  | failBeforeOpen
  | failAfterOpen
  deriving DecidableEq, Repr, Fintype

/-- Embeds `RedisAdapter.isConnected`: `this.client?.isOpen ?? false`. The state is
the `client` field — `none` when null, `some isOpen` otherwise. -/
def RedisAdapter.isConnected (client : Option Bool) : Bool :=
  client.getD false

/-- Embeds `RedisAdapter.connect`: returns immediately when the client is open;
otherwise creates a client and awaits its `connect()` — on failure the
client field keeps a closed client, so `isConnected` stays false.
Returns (success, new client field). -/
def RedisAdapter.connect (client : Option Bool) (o : ConnectOutcome) :
    Bool × Option Bool :=
  if RedisAdapter.isConnected client then
    (true, client)
  else
    match o with
    | .success => (true, some true)
    | .failure => (false, some false)

/-- Embeds `RedisAdapter.disconnect`: quits and nulls the client only when open. -/
def RedisAdapter.disconnect (client : Option Bool) : Option Bool :=
  if RedisAdapter.isConnected client then none else client

/-- Embeds `PgVectorAdapter.isConnected`: `this.pool !== null`. -/
def PgVectorAdapter.isConnected (pool : Bool) : Bool :=
  pool

/-- Embeds `PgVectorAdapter.connect`: returns immediately when the pool exists;
otherwise assigns a new pool and then runs the verification query — on
failure the `pool` field stays assigned, so `isConnected` reports true even
though `connect()` rejected. Returns (success, new pool field). -/
def PgVectorAdapter.connect (pool : Bool) (o : ConnectOutcome) : Bool × Bool :=
  if PgVectorAdapter.isConnected pool then
    (true, pool)
  else
    match o with
    | .success => (true, true)
    | .failure => (false, true)

/-- Embeds `PgVectorAdapter.disconnect`: ends and nulls the pool when present. -/
def PgVectorAdapter.disconnect (_pool : Bool) : Bool :=
  false

/-- Embeds `SqliteAdapter.isConnected`: `this.database !== null`. -/
def SqliteAdapter.isConnected (database : Bool) : Bool :=
  database

/-- Embeds `SqliteAdapter.connect`: returns immediately when the database handle
exists; otherwise opens the file and loads extensions (see
`SqliteConnectOutcome` for the failure points). -/
def SqliteAdapter.connect (database : Bool) (o : SqliteConnectOutcome) :
    Bool × Bool :=
  if SqliteAdapter.isConnected database then
    (true, database)
  else
    match o with
    | .success => (true, true)
    | .failBeforeOpen => (false, false)
    | .failAfterOpen => (false, true)

/-- Embeds `SqliteAdapter.disconnect`: closes and nulls the handle when present. -/
def SqliteAdapter.disconnect (_database : Bool) : Bool :=
  false

/-- Qdrant adapter connection state: the `client` field (non-null?) and the
`connected` flag. -/
abbrev QdrantState := Bool × Bool

/-- Embeds `QdrantAdapter.isConnected`: returns the `connected` flag. -/
def QdrantAdapter.isConnected (st : QdrantState) : Bool :=
  st.2

/-- Embeds `QdrantAdapter.connect`: returns immediately when `connected`; otherwise
assigns a client and probes `getCollections()` — the `connected` flag is set
only after the probe succeeds. -/
def QdrantAdapter.connect (st : QdrantState) (o : ConnectOutcome) :
    Bool × QdrantState :=
  if QdrantAdapter.isConnected st then
    (true, st)
  else
    match o with
    | .success => (true, (true, true))
    | .failure => (false, (true, false))

/-- Embeds `QdrantAdapter.disconnect`: nulls the client and clears the flag. -/
def QdrantAdapter.disconnect (_st : QdrantState) : QdrantState :=
  (false, false)

/-- Aggregator state: one slot per backend; `none` means the backend was not
configured (the adapter field was never assigned in the constructor),
`some st` carries that backend adapter's connection state. -/
structure VectorSmithState where
  redis : Option (Option Bool) := none
  pgvector : Option Bool := none
  sqlite : Option Bool := none
  qdrant : Option QdrantState := none
  deriving DecidableEq, Repr, Fintype

/-- The four backend kinds the aggregator can hold. -/
inductive Backend
  | redis
  | pgvector
  | sqlite
  | qdrant
  deriving DecidableEq, Repr, Fintype

/-- The configured backends, in the order `connect()` inspects them. -/
def configuredBackends (s : VectorSmithState) : List Backend :=
  (if s.redis.isSome then [Backend.redis] else [])
    ++ (if s.pgvector.isSome then [Backend.pgvector] else [])
    ++ (if s.sqlite.isSome then [Backend.sqlite] else [])
    ++ (if s.qdrant.isSome then [Backend.qdrant] else [])

/-- Each configured backend's `isConnected()` report (`none` when the
backend is not configured). -/
def backendConnected (s : VectorSmithState) : Backend → Option Bool
  | .redis => s.redis.map RedisAdapter.isConnected
  | .pgvector => s.pgvector.map PgVectorAdapter.isConnected
  | .sqlite => s.sqlite.map SqliteAdapter.isConnected
  | .qdrant => s.qdrant.map QdrantAdapter.isConnected

/-- Embeds `VectorSmithAdapter.isConnected`: a local accumulator starts false and
is OR-ed with each configured backend's `isConnected()`. -/
def VectorSmithAdapter.isConnected (s : VectorSmithState) : Bool :=
  let connected := false
  let connected := match s.redis with
    | some client => connected || RedisAdapter.isConnected client
    | none => connected
  let connected := match s.pgvector with
    | some pool => connected || PgVectorAdapter.isConnected pool
    | none => connected
  let connected := match s.sqlite with
    | some database => connected || SqliteAdapter.isConnected database
    | none => connected
  match s.qdrant with
  | some st => connected || QdrantAdapter.isConnected st
  | none => connected

/-- Errors of the aggregate `connect()`: the zero-adapters configuration
error, or the rejection `Promise.all` propagates when a backend fails. -/
inductive VectorSmithError
  | noAdaptersConfigured
  | backendConnectFailed
  deriving DecidableEq, Repr

/-- The environment for one aggregate `connect()`: what each backend's
network step would do if attempted. -/
structure ConnectOutcomes where
  redis : ConnectOutcome := .success
  pgvector : ConnectOutcome := .success
  sqlite : SqliteConnectOutcome := .success
  qdrant : ConnectOutcome := .success
  deriving DecidableEq, Repr, Fintype

/-- Embeds `VectorSmithAdapter.connect`: pushes a `connect()` promise for each
configured backend (each starts running when pushed), throws the
configuration error when the list is empty, then awaits them all:
`Promise.all` waits for every promise, so every backend's state settles per
its own outcome, and the aggregate resolves only when all succeeded.
Returns (result, new state, backends whose `connect()` was invoked). -/
def VectorSmithAdapter.connect (s : VectorSmithState) (o : ConnectOutcomes) :
    Except VectorSmithError Unit × VectorSmithState × List Backend :=
  let redisRun := s.redis.map fun c => RedisAdapter.connect c o.redis
  let pgRun := s.pgvector.map fun p => PgVectorAdapter.connect p o.pgvector
  let sqliteRun := s.sqlite.map fun d => SqliteAdapter.connect d o.sqlite
  let qdrantRun := s.qdrant.map fun q => QdrantAdapter.connect q o.qdrant
  let invoked := configuredBackends s
  if invoked.isEmpty then
    (.error .noAdaptersConfigured, s, [])
  else
    let s' : VectorSmithState :=
      { redis := redisRun.map (·.2), pgvector := pgRun.map (·.2),
        sqlite := sqliteRun.map (·.2), qdrant := qdrantRun.map (·.2) }
    if (redisRun.all (·.1) && pgRun.all (·.1))
        && (sqliteRun.all (·.1) && qdrantRun.all (·.1)) then
      (.ok (), s', invoked)
    else
      (.error .backendConnectFailed, s', invoked)

/-- Whether backend `b`'s own `connect()` run would succeed, were the
aggregate `connect()` executed on `s` under outcomes `o` (`none` when `b`
is not configured, hence never invoked). -/
def connectRunSucceeded (s : VectorSmithState) (o : ConnectOutcomes) :
    Backend → Option Bool
  | .redis => s.redis.map fun c => (RedisAdapter.connect c o.redis).1
  | .pgvector => s.pgvector.map fun p => (PgVectorAdapter.connect p o.pgvector).1
  | .sqlite => s.sqlite.map fun d => (SqliteAdapter.connect d o.sqlite).1
  | .qdrant => s.qdrant.map fun q => (QdrantAdapter.connect q o.qdrant).1

/-- Embeds `VectorSmithAdapter.disconnect`: issues `disconnect()` only to
configured backends that report connected; the others are left as they
are. -/
def VectorSmithAdapter.disconnect (s : VectorSmithState) : VectorSmithState where
  redis := s.redis.map fun c =>
    if RedisAdapter.isConnected c then RedisAdapter.disconnect c else c
  pgvector := s.pgvector.map fun p =>
    if PgVectorAdapter.isConnected p then PgVectorAdapter.disconnect p else p
  sqlite := s.sqlite.map fun d =>
    if SqliteAdapter.isConnected d then SqliteAdapter.disconnect d else d
  qdrant := s.qdrant.map fun q =>
    if QdrantAdapter.isConnected q then QdrantAdapter.disconnect q else q

/-- Calling one configured backend adapter's own `disconnect()` directly,
leaving the other slots untouched. -/
def disconnectBackend (b : Backend) (s : VectorSmithState) : VectorSmithState :=
  match b with
  | .redis => { s with redis := s.redis.map RedisAdapter.disconnect }
  | .pgvector => { s with pgvector := s.pgvector.map PgVectorAdapter.disconnect }
  | .sqlite => { s with sqlite := s.sqlite.map SqliteAdapter.disconnect }
  | .qdrant => { s with qdrant := s.qdrant.map QdrantAdapter.disconnect }

/-! ## Redis and Qdrant data operations (redis.adapter.ts, qdrant.adapter.ts) -/

/-- Errors thrown by the Redis adapter's data operations. -/
inductive RedisError
  | notConnected
  deriving DecidableEq, Repr

/-- One command sent to the Redis driver. -/
inductive RedisCall
  | getCmd (key : String)
  | setCmd (key value : String)
  | setExCmd (key : String) (ttlSeconds : Int) (value : String)
  | delCmd (key : String)
  | existsCmd (key : String)
  | keysCmd (pattern : String)
  deriving DecidableEq, Repr

/-- The Redis adapter's data operations and their arguments
(`get`/`set`/`delete`/`exists`/`keys`). -/
inductive RedisOp
  | get (key : String)
  | set (key value : String) (ttlSeconds : Option Int)
  | delete (key : String)
  | existsKey (key : String)
  | keys (pattern : String)
  deriving DecidableEq, Repr

/-- Runs one Redis data operation: `ensureConnected` throws unless the
client is open, then exactly one driver command is issued (for `set`, the
JS truthiness test on `ttlSeconds` picks `setEx` only for a present nonzero
value). The driver's reply is returned to the caller unmodified and is not
modelled. Returns (result, commands issued). -/
def RedisAdapter.runOp (client : Option Bool) (op : RedisOp) :
    Except RedisError Unit × List RedisCall :=
  if !(RedisAdapter.isConnected client) then
    (.error .notConnected, [])
  else
    match op with
    | .get key => (.ok (), [.getCmd key])
    | .set key value ttlSeconds =>
        match ttlSeconds with
        | some t =>
            if t ≠ 0 then (.ok (), [.setExCmd key t value])
            else (.ok (), [.setCmd key value])
        | none => (.ok (), [.setCmd key value])
    | .delete key => (.ok (), [.delCmd key])
    | .existsKey key => (.ok (), [.existsCmd key])
    | .keys pattern => (.ok (), [.keysCmd pattern])

/-- Errors thrown by the Qdrant adapter's data operations. -/
inductive QdrantError
  | notConnected
  deriving DecidableEq, Repr

/-- One request sent through the Qdrant client. -/
inductive QdrantCall
  | createCollectionReq (name : String) (vectorSize : Nat) (distance : String)
  | deleteCollectionReq (name : String)
  | getCollectionsReq
  | upsertReq (collectionName : String) (points : List (Int × List Rat))
  | searchReq (collectionName : String) (vector : List Rat) (limit : Int)
  deriving DecidableEq, Repr

/-- The Qdrant adapter's data operations and their arguments. -/
inductive QdrantOp
  | createCollection (name : String) (vectorSize : Nat) (distance : String)
  | deleteCollection (name : String)
  | listCollections
  | upsert (collectionName : String) (points : List (Int × List Rat))
  | search (collectionName : String) (vector : List Rat) (limit : Int)
  deriving DecidableEq, Repr

/-- Runs one Qdrant data operation: `ensureConnected` throws when the client
is null or the `connected` flag is down, then exactly one client request is
issued. Returns (result, requests issued). -/
def QdrantAdapter.runOp (st : QdrantState) (op : QdrantOp) :
    Except QdrantError Unit × List QdrantCall :=
  if !st.1 || !st.2 then
    (.error .notConnected, [])
  else
    match op with
    | .createCollection name vectorSize distance =>
        (.ok (), [.createCollectionReq name vectorSize distance])
    | .deleteCollection name => (.ok (), [.deleteCollectionReq name])
    | .listCollections => (.ok (), [.getCollectionsReq])
    | .upsert collectionName points => (.ok (), [.upsertReq collectionName points])
    | .search collectionName vector limit =>
        (.ok (), [.searchReq collectionName vector limit])

/-! ## Embedding providers (jina_ai.embedding.ts, openai.embedding.ts) -/

/-- The provider options read by `embed` (`baseUrl` only shapes the URL). -/
structure EmbeddingProviderOptions where
  timeoutMs : Int := 60000
  expectedDimensions : Option Nat := none
  deriving DecidableEq, Repr

/-- What the HTTP round trip produced, as seen by the `embed` method:
the fetch aborted (the timeout fired), a non-2xx status, a JSON body whose
`data` is missing or not an array, or the `data` array of embeddings. -/
inductive EmbedHttpResponse
  | aborted
  | httpError (status : Nat) (body : String)
  | badShape
  | ok (data : List (List Rat))
  deriving DecidableEq, Repr

/-- Errors thrown by `embed` (one constructor per throw site). -/
inductive EmbedError
  | emptyInput
  | timedOut (timeoutMs : Int)
  | upstreamFailure (status : Nat) (body : String)
  | unexpectedShape
  | dimensionMismatch (expected got : Nat)
  deriving DecidableEq, Repr

/-- The `for (const v of vectors)` dimension check: throws on the first
vector whose length differs from the expected dimension. -/
def checkVectors (expected : Nat) : List (List Rat) → Except EmbedError Unit
  | [] => .ok ()
  | v :: rest =>
      if v.length ≠ expected then
        .error (.dimensionMismatch expected v.length)
      else
        checkVectors expected rest

/-- The body shared verbatim by `JinaAIEmbeddingProvider.embed` and
`OpenAIEmbeddingProvider.embed`: reject an empty batch, send one POST
carrying the whole batch, fail on abort / non-2xx / bad shape, then — when
`expectedDimensions` is configured — check every returned vector's length
before returning any vector. -/
def embedRequest (options : EmbeddingProviderOptions) (texts : List String)
    (response : EmbedHttpResponse) : Except EmbedError (List (List Rat)) :=
  if texts.isEmpty then
    .error .emptyInput
  else
    match response with
    | .aborted => .error (.timedOut options.timeoutMs)
    | .httpError status body => .error (.upstreamFailure status body)
    | .badShape => .error .unexpectedShape
    | .ok data =>
        let vectors := data
        match options.expectedDimensions with
        | none => .ok vectors
        | some expected =>
            match checkVectors expected vectors with
            | .error e => .error e
            | .ok _ => .ok vectors

/-- Embeds `JinaAIEmbeddingProvider.embed` — its body is `embedRequest` (the two
providers' methods are identical up to the message prefix). -/
def JinaAIEmbeddingProvider.embed (options : EmbeddingProviderOptions)
    (texts : List String) (response : EmbedHttpResponse) :
    Except EmbedError (List (List Rat)) :=
  embedRequest options texts response

/-- Embeds `OpenAIEmbeddingProvider.embed` — its body is `embedRequest`. -/
def OpenAIEmbeddingProvider.embed (options : EmbeddingProviderOptions)
    (texts : List String) (response : EmbedHttpResponse) :
    Except EmbedError (List (List Rat)) :=
  embedRequest options texts response

/-! ## Embedding registry (src/embedding/vectorsmith.embedding.ts) -/

/-- The `EmbeddingProviderType` enum. -/
inductive EmbeddingProviderType
  | Jina
  | OpenAI
  deriving DecidableEq, Repr, Fintype

/-- The registry configuration: an optional explicit default plus presence
of the per-provider configs (the api key / model / options inside them play
no role in registry resolution). -/
structure VectorSmithEmbeddingConfig where
  defaultProvider : Option EmbeddingProviderType := none
  jina : Bool := false
  openai : Bool := false
  deriving DecidableEq, Repr, Fintype

/-- Whether the configuration configures the given provider type. -/
def configures (config : VectorSmithEmbeddingConfig) :
    EmbeddingProviderType → Bool
  | .Jina => config.jina
  | .OpenAI => config.openai

/-- A constructed registry: the provider map's keys in insertion order
(Jina is inserted before OpenAI, matching the constructor), and the
resolved default. Providers are identified by their type tag; the provider
instances themselves are the HTTP wrappers modelled above. -/
structure VectorSmithEmbedding where
  providers : List EmbeddingProviderType
  defaultProvider : Option EmbeddingProviderType
  deriving DecidableEq, Repr

/-- Errors thrown by the registry (one constructor per throw site used by
the constructor and `getProvider`). -/
inductive RegistryError
  | noProvidersConfigured
  | defaultProviderNotConfigured (t : EmbeddingProviderType)
  | noDefaultProvider
  | providerNotConfigured (t : EmbeddingProviderType)
  deriving DecidableEq, Repr

/-- The `VectorSmithEmbedding` constructor: build the provider map, throw
when it is empty, then resolve the default — the explicitly configured one
(throwing when it was not configured), else the sole configured provider
when exactly one exists (`providers.keys().next().value`), else unset. -/
def VectorSmithEmbedding.new (config : VectorSmithEmbeddingConfig) :
    Except RegistryError VectorSmithEmbedding :=
  let providers :=
    (if config.jina then [EmbeddingProviderType.Jina] else [])
      ++ (if config.openai then [EmbeddingProviderType.OpenAI] else [])
  if providers.length = 0 then
    .error .noProvidersConfigured
  else
    match config.defaultProvider with
    | some t =>
        if t ∈ providers then
          .ok { providers := providers, defaultProvider := some t }
        else
          .error (.defaultProviderNotConfigured t)
    | none =>
        if providers.length = 1 then
          .ok { providers := providers, defaultProvider := providers.head? }
        else
          .ok { providers := providers, defaultProvider := none }

/-- Embeds `getProvider(type?)`: resolve `type ?? this.defaultProvider`, throw when
neither is available, then look the resolved type up in the provider map,
throwing when it was never configured. -/
def VectorSmithEmbedding.getProvider (e : VectorSmithEmbedding)
    (type? : Option EmbeddingProviderType) :
    Except RegistryError EmbeddingProviderType :=
  match type?.orElse fun _ => e.defaultProvider with
  | none => .error .noDefaultProvider
  | some t =>
      if t ∈ e.providers then .ok t
      else .error (.providerNotConfigured t)

/-! ## Theorems -/

/-- C4: `VectorSmithAdapter.connect()` on an aggregator with zero configured
backends fails with the configuration error, leaves the state untouched,
and invokes no backend `connect()` (no network I/O is attempted). -/
theorem connect_empty_config_fails_without_io
    (s : VectorSmithState) (o : ConnectOutcomes)
    (h : configuredBackends s = []) :
    VectorSmithAdapter.connect s o = (.error .noAdaptersConfigured, s, []) := by
  unfold VectorSmithAdapter.connect
  simp [h]

/-- Witness for C4 at the all-unconfigured state. -/
theorem connect_empty_config_fails_without_io_witness :
    VectorSmithAdapter.connect {} {} = (.error .noAdaptersConfigured, {}, []) :=
  connect_empty_config_fails_without_io {} {} (by decide)

set_option maxRecDepth 4096 in
/-- C5: the aggregator's `isConnected()` is the logical OR of the configured
backends' `isConnected()` reports (true iff some configured backend reports
connected), and disconnecting one backend directly leaves it true while a
different configured backend still reports connected. -/
theorem isConnected_or_over_configured :
    (∀ s : VectorSmithState,
        VectorSmithAdapter.isConnected s = true ↔
          ∃ b, backendConnected s b = some true)
    ∧ ∀ (s : VectorSmithState) (a b : Backend), a ≠ b →
        backendConnected s b = some true →
        VectorSmithAdapter.isConnected (disconnectBackend a s) = true := by
  decide

/-- Witness for C5: redis and qdrant both configured and connected;
disconnecting redis leaves the aggregate connected through qdrant. -/
theorem isConnected_or_over_configured_witness :
    VectorSmithAdapter.isConnected
      (disconnectBackend .redis
        { redis := some (some true), qdrant := some (true, true) }) = true :=
  isConnected_or_over_configured.2
    { redis := some (some true), qdrant := some (true, true) }
    .redis .qdrant (by decide) (by decide)

/-- Each backend adapter whose `connect()` run reports success is left
reporting connected. -/
theorem backend_connect_success_connected :
    (∀ c o, (RedisAdapter.connect c o).1 = true →
      RedisAdapter.isConnected (RedisAdapter.connect c o).2 = true)
    ∧ (∀ p o, (PgVectorAdapter.connect p o).1 = true →
      PgVectorAdapter.isConnected (PgVectorAdapter.connect p o).2 = true)
    ∧ (∀ d o, (SqliteAdapter.connect d o).1 = true →
      SqliteAdapter.isConnected (SqliteAdapter.connect d o).2 = true)
    ∧ (∀ q o, (QdrantAdapter.connect q o).1 = true →
      QdrantAdapter.isConnected (QdrantAdapter.connect q o).2 = true) := by
  refine ⟨?_, ?_, ?_, ?_⟩ <;> decide

/-- C3: when the aggregate `connect()` on at least two configured backends
fails because one backend's connect failed, every backend whose own connect
run succeeded reports connected in the resulting state, even though the
aggregate call reports failure — the aggregate connect performs no rollback. -/
theorem connect_partial_failure_keeps_connected
    (s : VectorSmithState) (o : ConnectOutcomes) (b bf : Backend)
    (hconf : 2 ≤ (configuredBackends s).length)
    (hfail : connectRunSucceeded s o bf = some false)
    (hsucc : connectRunSucceeded s o b = some true) :
    (VectorSmithAdapter.connect s o).1 = .error .backendConnectFailed
    ∧ backendConnected (VectorSmithAdapter.connect s o).2.1 b = some true := by
  have hinv : (configuredBackends s).isEmpty = false := by
    cases hcb : configuredBackends s with
    | nil => rw [hcb] at hconf; simp at hconf
    | cons x xs => simp
  have hallOk :
      (((s.redis.map fun c => RedisAdapter.connect c o.redis).all (·.1)
          && (s.pgvector.map fun p => PgVectorAdapter.connect p o.pgvector).all (·.1))
        && ((s.sqlite.map fun d => SqliteAdapter.connect d o.sqlite).all (·.1)
          && (s.qdrant.map fun q => QdrantAdapter.connect q o.qdrant).all (·.1))) = false := by
    cases bf with
    | redis =>
        simp only [connectRunSucceeded] at hfail
        obtain ⟨c, hc, hfc⟩ := Option.map_eq_some'.mp hfail
        simp [hc, hfc]
    | pgvector =>
        simp only [connectRunSucceeded] at hfail
        obtain ⟨p, hp, hfp⟩ := Option.map_eq_some'.mp hfail
        simp [hp, hfp]
    | sqlite =>
        simp only [connectRunSucceeded] at hfail
        obtain ⟨d, hd, hfd⟩ := Option.map_eq_some'.mp hfail
        simp [hd, hfd]
    | qdrant =>
        simp only [connectRunSucceeded] at hfail
        obtain ⟨q, hq, hfq⟩ := Option.map_eq_some'.mp hfail
        simp [hq, hfq]
  unfold VectorSmithAdapter.connect
  simp only [hinv, Bool.false_eq_true, if_false, hallOk]
  constructor
  · trivial
  · cases b with
    | redis =>
        simp only [connectRunSucceeded] at hsucc
        obtain ⟨c, hc, hsc⟩ := Option.map_eq_some'.mp hsucc
        simp [backendConnected, hc]
        exact backend_connect_success_connected.1 c o.redis hsc
    | pgvector =>
        simp only [connectRunSucceeded] at hsucc
        obtain ⟨p, hp, hsp⟩ := Option.map_eq_some'.mp hsucc
        simp [backendConnected, hp]
        exact backend_connect_success_connected.2.1 p o.pgvector hsp
    | sqlite =>
        simp only [connectRunSucceeded] at hsucc
        obtain ⟨d, hd, hsd⟩ := Option.map_eq_some'.mp hsucc
        simp [backendConnected, hd]
        exact backend_connect_success_connected.2.2.1 d o.sqlite hsd
    | qdrant =>
        simp only [connectRunSucceeded] at hsucc
        obtain ⟨q, hq, hsq⟩ := Option.map_eq_some'.mp hsucc
        simp [backendConnected, hq]
        exact backend_connect_success_connected.2.2.2 q o.qdrant hsq

/-- Witness for C3: redis (fresh) and qdrant (fresh) configured; redis
succeeds, qdrant fails — the aggregate errors while redis stays open. -/
theorem connect_partial_failure_keeps_connected_witness :
    (VectorSmithAdapter.connect
        { redis := some none, qdrant := some (false, false) }
        { qdrant := .failure }).1 = .error .backendConnectFailed
    ∧ backendConnected
        (VectorSmithAdapter.connect
          { redis := some none, qdrant := some (false, false) }
          { qdrant := .failure }).2.1 .redis = some true :=
  connect_partial_failure_keeps_connected
    { redis := some none, qdrant := some (false, false) }
    { qdrant := .failure } .redis .qdrant
    (by decide) (by decide) (by decide)

/-- C6: every data operation of every backend adapter, invoked while the
adapter is not connected, fails with that adapter's not-connected error and
issues no driver call at all (in particular it never attempts an implicit
reconnect, and for PgVector the database is left untouched). -/
theorem data_ops_require_connected_handle :
    (∀ (client : Option Bool) (op : RedisOp),
        RedisAdapter.isConnected client = false →
        RedisAdapter.runOp client op = (.error .notConnected, []))
    ∧ (∀ (st : QdrantState) (op : QdrantOp),
        QdrantAdapter.isConnected st = false →
        QdrantAdapter.runOp st op = (.error .notConnected, []))
    ∧ (∀ (db : PgDatabase) (t : String) (v : List Rat) (m : Option String),
        PgVectorAdapter.insertVector false db t v m = (.error .notConnected, db, []))
    ∧ (∀ (db : PgDatabase) (t : String) (d : Nat),
        PgVectorAdapter.createTable false db t d = (.error .notConnected, db, []))
    ∧ (∀ (db : PgDatabase) (t : String) (i : Int),
        PgVectorAdapter.deleteVector false db t i = (.error .notConnected, db, []))
    ∧ (∀ (db : PgDatabase) (t : String),
        PgVectorAdapter.dropTable false db t = (.error .notConnected, db, []))
    ∧ (∀ (db : PgDatabase) (t : String) (q : List Rat) (l : Int)
        (m : PgDistanceFunction),
        PgVectorAdapter.searchSimilar false db t q l m = (.error .notConnected, []))
    ∧ (∀ (a : SqliteAdapter) (r : Int) (t : String) (v : List Rat)
        (m : Option String),
        SqliteAdapter.insertVector a false r t v m = (.error .notConnected, []))
    ∧ (∀ (a : SqliteAdapter) (i : Int) (t : String) (v : List Rat)
        (m : Option String),
        SqliteAdapter.upsertVector a false i t v m = (.error .notConnected, []))
    ∧ (∀ (a : SqliteAdapter) (t : String),
        SqliteAdapter.createTable a false t = (.error .notConnected, []))
    ∧ (∀ (a : SqliteAdapter) (t : String),
        SqliteAdapter.dropTable a false t = (.error .notConnected, []))
    ∧ (∀ (a : SqliteAdapter) (c : Int) (t : String) (i : Int),
        SqliteAdapter.deleteVector a false c t i = (.error .notConnected, []))
    ∧ (∀ (a : SqliteAdapter) (rows : List SqliteScanRow) (t : String)
        (q : List Rat) (l : Int) (m : SqliteDistanceMetric),
        SqliteAdapter.searchSimilar a false rows t q l m =
          (.error .notConnected, [])) := by
  refine ⟨?_, ?_, ?_, ?_, ?_, ?_, ?_, ?_, ?_, ?_, ?_, ?_, ?_⟩
  · intro client op h
    simp [RedisAdapter.runOp, h]
  · intro st op h
    unfold QdrantAdapter.isConnected at h
    simp [QdrantAdapter.runOp, h]
  · intro db t v m; rfl
  · intro db t d; rfl
  · intro db t i; rfl
  · intro db t; rfl
  · intro db t q l m; rfl
  · intro a r t v m; rfl
  · intro a i t v m; rfl
  · intro a t; rfl
  · intro a t; rfl
  · intro a c t i; rfl
  · intro a rows t q l m; rfl

/-- Witness for C6: a fresh (never connected) Redis client and a Qdrant
adapter whose probe never succeeded both reject a data operation. -/
theorem data_ops_require_connected_handle_witness :
    RedisAdapter.runOp none (.get "k") = (.error .notConnected, [])
    ∧ QdrantAdapter.runOp (true, false) .listCollections =
        (.error .notConnected, []) :=
  ⟨data_ops_require_connected_handle.1 none (.get "k") (by decide),
   data_ops_require_connected_handle.2.1 (true, false) .listCollections (by decide)⟩

/-- The dimension-check loop fails on some vector's length whenever the
batch contains a vector of the wrong length. -/
theorem checkVectors_error_of_mem (expected : Nat) (data : List (List Rat))
    (hbad : ∃ v ∈ data, v.length ≠ expected) :
    ∃ got, got ≠ expected ∧
      checkVectors expected data = .error (.dimensionMismatch expected got) := by
  induction data with
  | nil => simp at hbad
  | cons v rest ih =>
      by_cases hv : v.length ≠ expected
      · exact ⟨v.length, hv, by simp [checkVectors, hv]⟩
      · push_neg at hv
        obtain ⟨w, hw, hwl⟩ := hbad
        rcases List.mem_cons.mp hw with rfl | hw
        · exact absurd hv hwl
        · obtain ⟨got, hgot, heq⟩ := ih ⟨w, hw, hwl⟩
          exact ⟨got, hgot, by simp [checkVectors, hv, heq]⟩

/-- C7: for both providers, when `expectedDimensions` is configured and the
HTTP response contains any vector of a different length, `embed` on a
non-empty batch fails with a dimension-mismatch error — no vector list is
ever returned to the caller. -/
theorem embed_dimension_mismatch_rejects_batch
    (options : EmbeddingProviderOptions) (texts : List String)
    (data : List (List Rat)) (expected : Nat)
    (hne : texts ≠ []) (hd : options.expectedDimensions = some expected)
    (hbad : ∃ v ∈ data, v.length ≠ expected) :
    ∃ got, got ≠ expected ∧
      JinaAIEmbeddingProvider.embed options texts (.ok data) =
        .error (.dimensionMismatch expected got)
      ∧ OpenAIEmbeddingProvider.embed options texts (.ok data) =
        .error (.dimensionMismatch expected got) := by
  obtain ⟨got, hgot, hcheck⟩ := checkVectors_error_of_mem expected data hbad
  refine ⟨got, hgot, ?_, ?_⟩ <;>
    simp [JinaAIEmbeddingProvider.embed, OpenAIEmbeddingProvider.embed,
      embedRequest, hne, hd, hcheck]

/-- Witness for C7: `expectedDimensions = 896` against a response carrying a
10-dimensional vector. -/
theorem embed_dimension_mismatch_rejects_batch_witness :
    ∃ got, got ≠ 896 ∧
      JinaAIEmbeddingProvider.embed { expectedDimensions := some 896 } ["hello"]
          (.ok [[1, 2, 3, 4, 5, 6, 7, 8, 9, 10]]) =
        .error (.dimensionMismatch 896 got)
      ∧ OpenAIEmbeddingProvider.embed { expectedDimensions := some 896 } ["hello"]
          (.ok [[1, 2, 3, 4, 5, 6, 7, 8, 9, 10]]) =
        .error (.dimensionMismatch 896 got) :=
  embed_dimension_mismatch_rejects_batch
    { expectedDimensions := some 896 } ["hello"]
    [[1, 2, 3, 4, 5, 6, 7, 8, 9, 10]] 896
    (by decide) rfl ⟨[1, 2, 3, 4, 5, 6, 7, 8, 9, 10], by simp, by simp⟩

/-- C8: the registry's default provider is the explicitly configured one
when that provider is configured (and construction fails when it is not),
else the sole configured provider when exactly one exists, else unset; and
`getProvider` returns the provider for the explicit type when that type is
configured, fails for an explicit unconfigured type, and with no explicit
type falls back to the default, failing when there is none. -/
theorem registry_default_and_getProvider :
    (∀ (cfg : VectorSmithEmbeddingConfig) (t : EmbeddingProviderType),
        cfg.defaultProvider = some t → configures cfg t = true →
        (VectorSmithEmbedding.new cfg).toOption.map (·.defaultProvider) =
          some (some t))
    ∧ (∀ (cfg : VectorSmithEmbeddingConfig) (t : EmbeddingProviderType),
        cfg.defaultProvider = some t → configures cfg t = false →
        (VectorSmithEmbedding.new cfg).toOption = none)
    ∧ (∀ cfg : VectorSmithEmbeddingConfig,
        cfg.defaultProvider = none → cfg.jina = true → cfg.openai = false →
        (VectorSmithEmbedding.new cfg).toOption.map (·.defaultProvider) =
          some (some .Jina))
    ∧ (∀ cfg : VectorSmithEmbeddingConfig,
        cfg.defaultProvider = none → cfg.jina = false → cfg.openai = true →
        (VectorSmithEmbedding.new cfg).toOption.map (·.defaultProvider) =
          some (some .OpenAI))
    ∧ (∀ cfg : VectorSmithEmbeddingConfig,
        cfg.defaultProvider = none → cfg.jina = true → cfg.openai = true →
        (VectorSmithEmbedding.new cfg).toOption.map (·.defaultProvider) =
          some none)
    ∧ (∀ (cfg : VectorSmithEmbeddingConfig) (t : EmbeddingProviderType),
        (VectorSmithEmbedding.new cfg).toOption.map
            (fun r => r.getProvider (some t)) =
          (VectorSmithEmbedding.new cfg).toOption.map
            (fun _r => if configures cfg t then .ok t
                       else .error (.providerNotConfigured t)))
    ∧ (∀ cfg : VectorSmithEmbeddingConfig,
        (VectorSmithEmbedding.new cfg).toOption.map
            (fun r => r.getProvider none) =
          (VectorSmithEmbedding.new cfg).toOption.map
            (fun r => match r.defaultProvider with
                      | some d => .ok d
                      | none => .error .noDefaultProvider)) := by
  refine ⟨?_, ?_, ?_, ?_, ?_, ?_, ?_⟩ <;> decide

/-- Witness for C8: with both providers configured and Jina explicitly
requested as default, construction keeps Jina as default. -/
theorem registry_default_and_getProvider_witness :
    (VectorSmithEmbedding.new
        { defaultProvider := some .Jina, jina := true, openai := true
          : VectorSmithEmbeddingConfig }).toOption.map
      (·.defaultProvider) = some (some .Jina) :=
  registry_default_and_getProvider.1
    { defaultProvider := some .Jina, jina := true, openai := true }
    .Jina rfl rfl

/-- C9: the `SqliteAdapter` constructor throws for every configuration whose
`vectorDimension` is non-positive — no adapter instance with a non-positive
declared dimension is ever constructed. -/
theorem sqlite_constructor_rejects_nonpositive_dimension
    (config : SqliteAdapterConfig) (h : config.vectorDimension ≤ 0) :
    SqliteAdapter.new config = .error .invalidDimensionConfig
    ∧ ∀ a : SqliteAdapter, SqliteAdapter.new config ≠ .ok a := by
  refine ⟨?_, ?_⟩
  · simp [SqliteAdapter.new, h]
  · intro a
    simp [SqliteAdapter.new, h]

/-- Witness for C9 at `vectorDimension = 0`. -/
theorem sqlite_constructor_rejects_nonpositive_dimension_witness :
    SqliteAdapter.new { vectorDimension := 0 } = .error .invalidDimensionConfig :=
  (sqlite_constructor_rejects_nonpositive_dimension
    { vectorDimension := 0 } (by decide)).1

/-- C10: `"inner_product"` and `"dot"` denote the same SQLite metric: on an
adapter constructed with metric `dot`, requesting `inner_product` passes the
metric-match check (and vice versa), and a connected `searchSimilar` under
the aliased metric succeeds rather than failing with a metric mismatch. -/
theorem sqlite_dot_inner_product_alias
    (cfgDot cfgIp : SqliteAdapterConfig) (aDot aIp : SqliteAdapter)
    (hmDot : cfgDot.distanceMetric = some .dot)
    (hmIp : cfgIp.distanceMetric = some .innerProduct)
    (haDot : SqliteAdapter.new cfgDot = .ok aDot)
    (haIp : SqliteAdapter.new cfgIp = .ok aIp) :
    aDot.assertDistanceMetric .innerProduct = .ok ()
    ∧ aIp.assertDistanceMetric .dot = .ok ()
    ∧ (∀ (rows : List SqliteScanRow) (t : String) (q : List Rat) (l : Int),
        aDot.ensureDimension q = .ok () →
        aDot.searchSimilar true rows t q l .innerProduct =
          (.ok rows, [.fullScan t q l])) := by
  have hdot : aDot.distanceMetric = "dot" := by
    unfold SqliteAdapter.new at haDot
    split at haDot
    · exact absurd haDot (by simp)
    · cases haDot
      simp [hmDot, mapDistanceMetric]
  have hip : aIp.distanceMetric = "dot" := by
    unfold SqliteAdapter.new at haIp
    split at haIp
    · exact absurd haIp (by simp)
    · cases haIp
      simp [hmIp, mapDistanceMetric]
  refine ⟨?_, ?_, ?_⟩
  · simp [SqliteAdapter.assertDistanceMetric, hdot, mapDistanceMetric]
  · simp [SqliteAdapter.assertDistanceMetric, hip, mapDistanceMetric]
  · intro rows t q l hq
    simp [SqliteAdapter.searchSimilar, hq,
      SqliteAdapter.assertDistanceMetric, hdot, mapDistanceMetric]

/-- Witness for C10: a dot-configured and an inner_product-configured
adapter of dimension 2; the dot-configured one answers an `inner_product`
search. -/
theorem sqlite_dot_inner_product_alias_witness :
    ({ config := { vectorDimension := 2, distanceMetric := some .dot },
       distanceMetric := "dot" } : SqliteAdapter).searchSimilar
        true [] "t" [1, 2] 10 .innerProduct = (.ok [], [.fullScan "t" [1, 2] 10]) :=
  (sqlite_dot_inner_product_alias
    { vectorDimension := 2, distanceMetric := some .dot }
    { vectorDimension := 2, distanceMetric := some .innerProduct }
    { config := { vectorDimension := 2, distanceMetric := some .dot },
      distanceMetric := "dot" }
    { config := { vectorDimension := 2, distanceMetric := some .innerProduct },
      distanceMetric := "dot" }
    rfl rfl (by decide) (by decide)).2.2 [] "t" [1, 2] 10 (by decide)

/-- C1 counterexample: inserting a 2-element vector into a connected
PgVector adapter whose table is declared 3-dimensional does NOT fail before
a network call — the adapter performs no client-side dimension check, the
INSERT is sent to the server (the issued-call trace is nonempty), and the
resulting error is the server's, propagated unwrapped. -/
theorem pg_insert_mismatch_sends_network_call :
    (PgVectorAdapter.insertVector true
        [("t", { dim := 3, nextId := 1, rows := [] })] "t" [1, 2] none).2.2 =
      [.insertQuery "t" [1, 2]]
    ∧ (PgVectorAdapter.insertVector true
        [("t", { dim := 3, nextId := 1, rows := [] })] "t" [1, 2] none).1 =
      .error (.serverDimensionMismatch 3 2)
    ∧ ([PgCall.insertQuery "t" [1, 2]] : List PgCall) ≠ [] := by
  decide

/-- C1 amended: on a dimension mismatch, `SqliteAdapter.insertVector` fails
with a client-side dimension-mismatch error before executing the INSERT
(the only driver call made is the statement `prepare`; no `run` is issued,
so no write happens), while `PgVectorAdapter.insertVector` performs no
client-side check — the INSERT is sent to the server, the server's
dimension error propagates, and the database is left unchanged (no write). -/
theorem insert_dimension_mismatch_behaviour
    : (∀ (a : SqliteAdapter) (r : Int) (t : String) (v : List Rat)
        (m : Option String),
        (v.length : Int) ≠ a.config.vectorDimension →
        SqliteAdapter.insertVector a true r t v m =
          (.error (.dimensionMismatch a.config.vectorDimension v.length),
            [.prepare t]))
    ∧ (∀ (db : PgDatabase) (tbl : PgTable) (t : String) (v : List Rat)
        (m : Option String),
        db.lookup t = some tbl → v.length ≠ tbl.dim →
        PgVectorAdapter.insertVector true db t v m =
          (.error (.serverDimensionMismatch tbl.dim v.length), db,
            [.insertQuery t v])) := by
  refine ⟨?_, ?_⟩
  · intro a r t v m h
    simp [SqliteAdapter.insertVector, SqliteAdapter.serializeVector,
      SqliteAdapter.ensureDimension, h]
  · intro db tbl t v m hlook hlen
    simp [PgVectorAdapter.insertVector, hlook, hlen]

/-- Witness for the amended C1 at concrete mismatching inserts on both
adapters. -/
theorem insert_dimension_mismatch_behaviour_witness :
    ({ config := { vectorDimension := 3 }, distanceMetric := "cosine" }
        : SqliteAdapter).insertVector true 1 "t" [1, 2] none =
      (.error (.dimensionMismatch 3 2), [.prepare "t"])
    ∧ PgVectorAdapter.insertVector true
        [("t", { dim := 3, nextId := 1, rows := [] })] "t" [1, 2] none =
      (.error (.serverDimensionMismatch 3 2),
        [("t", { dim := 3, nextId := 1, rows := [] })],
        [.insertQuery "t" [1, 2]]) :=
  ⟨insert_dimension_mismatch_behaviour.1
      { config := { vectorDimension := 3 }, distanceMetric := "cosine" }
      1 "t" [1, 2] none (by decide),
   insert_dimension_mismatch_behaviour.2
      [("t", { dim := 3, nextId := 1, rows := [] })]
      { dim := 3, nextId := 1, rows := [] } "t" [1, 2] none rfl (by decide)⟩

/-- C2 counterexample: a connected PgVector search selecting the
inner-product metric returns rows that are NOT ordered closest-first under
inner product. Table (dimension 2): row 1 = [10, 0], row 2 = [1, 0]; query
[1, 0]. Row 1 has the larger inner product (closer under the selected
metric) but the returned order is [row 2, row 1] — the euclidean order the
SQL `ORDER BY embedding <-> $1::vector` clause always produces. -/
theorem pg_search_not_ordered_by_selected_metric :
    (PgVectorAdapter.searchSimilar true
        [("t", { dim := 2, nextId := 3,
                 rows := [{ id := 1, embedding := [10, 0], metadata := none },
                          { id := 2, embedding := [1, 0], metadata := none }] })]
        "t" [1, 0] 10 .innerProduct).1 =
      .ok [{ id := 2, embedding := [1, 0], metadata := none },
           { id := 1, embedding := [10, 0], metadata := none }]
    ∧ orderedClosestFirst .innerProduct [1, 0]
        [{ id := 2, embedding := [1, 0], metadata := none },
         { id := 1, embedding := [10, 0], metadata := none }] = false := by
  refine ⟨?_, ?_⟩
  · norm_num [PgVectorAdapter.searchSimilar, pgOrderLe, l2sq, List.lookup]
  · norm_num [orderedClosestFirst, closerOrEqUnder, dotProduct]

/-- A list sorted under the euclidean comparison is closest-first under the
`l2` metric. -/
theorem orderedClosestFirst_l2_of_sorted (q : List Rat) :
    ∀ rs : List PgRow, List.Sorted (pgOrderLe q) rs →
      orderedClosestFirst .l2 q rs = true
  | [] => fun _ => rfl
  | [_] => fun _ => rfl
  | a :: b :: rest => fun h => by
      rw [List.sorted_cons] at h
      obtain ⟨hab, htail⟩ := h
      have h1 : closerOrEqUnder .l2 q a.embedding b.embedding = true := by
        simp [closerOrEqUnder]
        exact hab b (by simp)
      simp [orderedClosestFirst, h1]
      exact orderedClosestFirst_l2_of_sorted q (b :: rest) htail

/-- C2 amended: whatever distance function is selected, a successful
`PgVectorAdapter.searchSimilar` returns its rows ordered by euclidean
distance to the query (the `<->` operator in the fixed `ORDER BY` clause) —
the selected metric only chooses the reported distance expression, never
the ordering. -/
theorem pg_search_ordered_by_l2_regardless_of_metric
    (db : PgDatabase) (t : String) (q : List Rat) (l : Int)
    (m : PgDistanceFunction) (results : List PgRow) (calls : List PgCall)
    (h : PgVectorAdapter.searchSimilar true db t q l m = (.ok results, calls)) :
    List.Sorted (pgOrderLe q) results
    ∧ orderedClosestFirst .l2 q results = true := by
  unfold PgVectorAdapter.searchSimilar at h
  simp only [Bool.not_true, Bool.false_eq_true, if_false] at h
  cases hlook : db.lookup t with
  | none =>
      rw [hlook] at h
      simp at h
  | some tbl =>
      rw [hlook] at h
      by_cases hdim : q.length ≠ tbl.dim
      · simp [hdim] at h
      · simp only [hdim, if_false] at h
        have hres : results = (tbl.rows.insertionSort (pgOrderLe q)).take l.toNat := by
          have := congrArg Prod.fst h
          simp at this
          exact this.symm
        haveI : IsTotal PgRow (pgOrderLe q) := ⟨fun a b => le_total _ _⟩
        haveI : IsTrans PgRow (pgOrderLe q) := ⟨fun a b c hab hbc => le_trans hab hbc⟩
        have hsorted : List.Sorted (pgOrderLe q) results := by
          rw [hres]
          exact (List.sorted_insertionSort (pgOrderLe q) tbl.rows).sublist
            (List.take_sublist _ _)
        exact ⟨hsorted, orderedClosestFirst_l2_of_sorted q results hsorted⟩

/-- Witness for the amended C2 at the counterexample's table and query. -/
theorem pg_search_ordered_by_l2_regardless_of_metric_witness :
    List.Sorted (pgOrderLe [1, 0])
      [{ id := 2, embedding := [1, 0], metadata := none },
       { id := 1, embedding := [10, 0], metadata := none }]
    ∧ orderedClosestFirst .l2 [1, 0]
        [{ id := 2, embedding := [1, 0], metadata := none },
         { id := 1, embedding := [10, 0], metadata := none }] = true :=
  pg_search_ordered_by_l2_regardless_of_metric
    [("t", { dim := 2, nextId := 3,
             rows := [{ id := 1, embedding := [10, 0], metadata := none },
                      { id := 2, embedding := [1, 0], metadata := none }] })]
    "t" [1, 0] 10 .innerProduct
    [{ id := 2, embedding := [1, 0], metadata := none },
     { id := 1, embedding := [10, 0], metadata := none }]
    [.selectQuery "t" [1, 0] 10]
    (by norm_num [PgVectorAdapter.searchSimilar, pgOrderLe, l2sq, List.lookup])
